import Mathlib

/-!
Verification of the declarative command-parameter binder described by the
repository's specification, against the argument registrations in
`src/azure-cli/azure/cli/command_modules/cosmosdb/_params.py` and the blob
scenario tests in
`src/azure-cli/azure/cli/command_modules/storage/tests/latest/test_storage_blob_scenarios.py`.

The registration data (scopes, flag names, types, validators, help text) is
embedded directly from `_params.py`.  The binder machinery itself (scope
registry, validator pipeline, dispatcher) and the cosmosdb validators live in
parts of the repository that are not present here (`azure.cli.core`,
`cosmosdb/_validators.py`, the storage SDK); those are modelled from the
specification, as marked on each definition.
-/

/-! ## Validation errors (spec section 3: ValidationError) -/

/-- Kinds of validation failure, from the spec's ValidationError data model. -/
inductive ErrKind where
  | BadFormat
  | OutOfRange
  | MutuallyExclusive
  | Missing
deriving DecidableEq, Repr

/-- A structured validation error: kind, offending flag name, message. -/
structure ValidationError where
  kind : ErrKind
  flag : String
  msg : String
deriving DecidableEq, Repr

/-! ## Range-bounded integer flags -/

/-- Modelled from the spec: the Validator Pipeline's "range check (integer
bounds, e.g., 1 ≤ n ≤ 2147483647)" (spec section 4.2).  The validator code is
not under `src/`; `_params.py` line 38 only declares `type=int` and documents
the accepted range in help text. -/
def rangeValidate (lo hi : Int) (flag : String) (n : Int) : Except ValidationError Int :=
  if n < lo ∨ n > hi then
    .error ⟨.OutOfRange, flag, "value out of accepted range"⟩
  else
    .ok n

/-- The bounds `_params.py` line 38 documents for `max_staleness_prefix`:
"Accepted range for this value is 1 - 2,147,483,647". -/
def validateMaxStalenessPrefix (n : Int) : Except ValidationError Int :=
  rangeValidate 1 2147483647 "max_staleness_prefix" n

/-! ## The failover-policies validator -/

/-- Split a character list at every occurrence of a separator character,
keeping empty groups (the semantics of Python's `str.split(sep)`). -/
def splitOnChar (c : Char) : List Char → List (List Char)
  | [] => [[]]
  | x :: xs =>
    match splitOnChar c xs with
    | [] => if x = c then [[], [x]] else [[x]]
    | g :: gs => if x = c then [] :: g :: gs else (x :: g) :: gs

/-- The numeric value of a decimal digit character, if it is one. -/
def digitVal (c : Char) : Option Nat :=
  if '0' ≤ c ∧ c ≤ '9' then some (c.toNat - '0'.toNat) else none

/-- Read a non-empty all-digit character list as a natural number. -/
def digitsToNat : List Char → Option Nat
  | [] => none
  | cs =>
    cs.foldl
      (fun acc c =>
        match acc, digitVal c with
        | some n, some d => some (n * 10 + d)
        | _, _ => none)
      (some 0)

/-- Read a character list as a decimal integer with an optional leading
minus sign. -/
def intFromChars : List Char → Option Int
  | '-' :: rest => (digitsToNat rest).map fun n => -(n : Int)
  | cs => (digitsToNat cs).map fun n => (n : Int)

/-- Modelled from the spec: one token of the composite "key=value pair
parsing (e.g., \x22region=priority\x22 pairs)" (spec section 4.2).  The real
`validate_failover_policies` lives in `cosmosdb/_validators.py`, which is not
under `src/`; `_params.py` line 52 attaches it to `failover_policies`. -/
def parsePair (t : String) : Option (String × Nat) :=
  match splitOnChar '=' t.data with
  | [k, v] =>
    match digitsToNat v with
    | some n => some (String.mk k, n)
    | none => none
  | _ => none

/-- Parse every token of a pair list, failing with `BadFormat` naming the
offending token (spec section 4.2 edge-case policy). -/
def parseAllPairs : List String → Except ValidationError (List (String × Nat))
  | [] => .ok []
  | t :: ts =>
    match parsePair t with
    | none => .error ⟨.BadFormat, "failover_policies", t⟩
    | some p =>
      match parseAllPairs ts with
      | .error e => .error e
      | .ok ps => .ok (p :: ps)

/-- The contiguity test for failover priorities: every index below the number
of pairs occurs among the supplied priorities (a contiguous zero-based
sequence, spec section 4.2). -/
def contiguousOk (ps : List (String × Nat)) : Bool :=
  decide (∀ i < ps.length, i ∈ ps.map Prod.snd)

/-- Modelled from the spec: the `failover_policies` validator (spec sections
4.2 and 8): empty input fails with `Missing`; malformed pairs fail with
`BadFormat`; duplicate keys fail with `BadFormat`; priorities that are not a
contiguous zero-based sequence fail with `OutOfRange`. -/
def validate_failover_policies (ts : List String) :
    Except ValidationError (List (String × Nat)) :=
  match ts with
  | [] => .error ⟨.Missing, "failover_policies", "no failover policies supplied"⟩
  | _ :: _ =>
    match parseAllPairs ts with
    | .error e => .error e
    | .ok ps =>
      if (ps.map Prod.fst).Nodup then
        if contiguousOk ps then .ok ps
        else .error ⟨.OutOfRange, "failover_policies", "failover priorities must be contiguous from 0"⟩
      else .error ⟨.BadFormat, "failover_policies", "duplicate region key"⟩

/-- The region keys a token list parses to (tokens that fail to parse
contribute nothing). -/
def pairKeys (ts : List String) : List String :=
  (ts.filterMap parsePair).map Prod.fst

/-! ## Embedding of the argument registrations in `_params.py`

Each `c.argument(...)` call is an `ArgEvent.argument` record and each
`c.ignore(...)` call an `ArgEvent.ignore` record, attached to the command
scope of the surrounding `argument_context`.  External references (enum
types, completers, validators, actions) are recorded by name, as the
registration file itself only names them. -/

/-- The per-value conversion named by `type=` in a registration:
`int` or `shell_safe_json_parse`. -/
inductive PyType where
  | tyInt
  | tyShellSafeJsonParse
deriving DecidableEq, Repr

/-- The `arg_type=` reference of a registration: `name_type`, `tags_type`,
`get_enum_type(E)` (recording the enum's name), or `get_three_state_flag()`. -/
inductive ArgTypeRef where
  | nameType
  | tagsType
  | enumType (enumName : String)
  | threeStateFlag
deriving DecidableEq, Repr

/-- The `completer=` reference of a registration. -/
inductive CompleterRef where
  | resourceNameCompletion (resourceType : String)
  | filesCompleter
deriving DecidableEq, Repr

/-- The `action=` reference of a registration. -/
inductive ActionRef where
  | createLocation
deriving DecidableEq, Repr

/-- The `validator=` reference of a registration. -/
inductive ValidatorRef where
  | ipRangeFilter
  | failoverPolicies
  | capabilities
  | virtualNetworkRules
deriving DecidableEq, Repr

/-- The keyword settings of one `c.argument(...)` call.  A field is `none`
when the call does not pass the keyword; `completer := some none` and
`idPart := some none` record an explicit `completer=None` / `id_part=None`. -/
structure ArgProps where
  optionsList : List String := []
  help : Option String := none
  argType : Option ArgTypeRef := none
  pyType : Option PyType := none
  completer : Option (Option CompleterRef) := none
  idPart : Option (Option String) := none
  validator : Option ValidatorRef := none
  nargs : Option String := none
  action : Option ActionRef := none
deriving DecidableEq, Repr

/-- One registration call inside an `argument_context` block. -/
inductive ArgEvent where
  | argument (name : String) (props : ArgProps)
  | ignore (name : String)
deriving DecidableEq, Repr

/-- The body of the loop `for scope in ['cosmosdb create', 'cosmosdb update']`
at `_params.py` lines 32-46, applied to one scope. -/
def loopBodyRegistrations (scope : List String) : List (List String × ArgEvent) :=
  [ (scope, .ignore "resource_group_location"),
    (scope, .argument "locations" { nargs := some "+", action := some .createLocation }),
    (scope, .argument "tags" { argType := some .tagsType }),
    (scope, .argument "default_consistency_level"
      { argType := some (.enumType "DefaultConsistencyLevel"),
        help := some "default consistency level of the Cosmos DB database account" }),
    (scope, .argument "max_staleness_prefix"
      { pyType := some .tyInt,
        help := some "when used with Bounded Staleness consistency, this value represents the number of stale requests tolerated. Accepted range for this value is 1 - 2,147,483,647" }),
    (scope, .argument "max_interval"
      { pyType := some .tyInt,
        help := some "when used with Bounded Staleness consistency, this value represents the time amount of staleness (in seconds) tolerated. Accepted range for this value is 1 - 100" }),
    (scope, .argument "ip_range_filter"
      { nargs := some "+", validator := some .ipRangeFilter,
        help := some "firewall support. Specifies the set of IP addresses or IP address ranges in CIDR form to be included as the allowed list of client IPs for a given database account. IP addresses/ranges must be comma-separated and must not contain any spaces" }),
    (scope, .argument "kind"
      { argType := some (.enumType "DatabaseAccountKind"),
        help := some "The type of Cosmos DB database account to create" }),
    (scope, .argument "enable_automatic_failover"
      { argType := some .threeStateFlag,
        help := some "Enables automatic failover of the write region in the rare event that the region is unavailable due to an outage. Automatic failover will result in a new write region for the account and is chosen based on the failover priorities configured for the account." }),
    (scope, .argument "capabilities"
      { nargs := some "+", validator := some .capabilities,
        help := some "set custom capabilities on the Cosmos DB database account." }),
    (scope, .argument "enable_virtual_network"
      { argType := some .threeStateFlag,
        help := some "Enables virtual network on the Cosmos DB database account" }),
    (scope, .argument "virtual_network_rules"
      { nargs := some "+", validator := some .virtualNetworkRules,
        help := some "ACL\x27s for virtual network" }),
    (scope, .argument "enable_multiple_write_locations"
      { argType := some .threeStateFlag,
        help := some "Enable Multiple Write Locations" }) ]

/-- The full sequence of registrations `load_arguments` performs, in program
order (`_params.py` lines 21-77). -/
def load_arguments : List (List String × ArgEvent) :=
  [ (["cosmosdb"], .argument "account_name"
      { argType := some .nameType,
        help := some "Name of the Cosmos DB database account",
        completer := some (some (.resourceNameCompletion "Microsoft.DocumentDb/databaseAccounts")),
        idPart := some (some "name") }),
    (["cosmosdb"], .argument "database_id"
      { optionsList := ["--db-name", "-d"], help := some "Database Name" }),
    (["cosmosdb", "create"], .argument "account_name" { completer := some none }) ]
  ++ ([["cosmosdb", "create"], ["cosmosdb", "update"]].flatMap loopBodyRegistrations)
  ++ [ (["cosmosdb", "regenerate-key"], .argument "key_kind"
        { argType := some (.enumType "KeyKind") }),
    (["cosmosdb", "failover-priority-change"], .argument "failover_policies"
      { validator := some .failoverPolicies, nargs := some "+",
        help := some "space-separated failover policies in \x27regionName=failoverPriority\x27 format. E.g eastus=0 westus=1" }),
    (["cosmosdb", "network-rule", "list"], .argument "account_name" { idPart := some none }),
    (["cosmosdb", "keys", "list"], .argument "account_name" { idPart := some none }),
    (["cosmosdb", "network-rule", "add"], .argument "subnet"
      { help := some "Name or ID of the subnet" }),
    (["cosmosdb", "network-rule", "add"], .argument "virtual_network"
      { help := some "The name of the VNET, which must be provided in conjunction with the name of the subnet" }),
    (["cosmosdb", "network-rule", "add"], .argument "ignore_missing_vnet_service_endpoint"
      { argType := some .threeStateFlag,
        help := some "Create firewall rule before the virtual network has vnet service endpoint enabled." }),
    (["cosmosdb", "network-rule", "remove"], .argument "subnet"
      { help := some "Name or ID of the subnet" }),
    (["cosmosdb", "network-rule", "remove"], .argument "virtual_network"
      { help := some "The name of the VNET, which must be provided in conjunction with the name of the subnet" }),
    (["cosmosdb", "collection"], .argument "collection_id"
      { optionsList := ["--collection-name", "-c"], help := some "Collection Name" }),
    (["cosmosdb", "collection"], .argument "throughput"
      { pyType := some .tyInt, help := some "Offer Throughput (RU/s)" }),
    (["cosmosdb", "collection"], .argument "partition_key_path"
      { help := some "Partition Key Path, e.g., \x27/properties/name\x27" }),
    (["cosmosdb", "collection"], .argument "indexing_policy"
      { pyType := some .tyShellSafeJsonParse, completer := some (some .filesCompleter),
        help := some "Indexing Policy, you can enter it as a string or as a file, e.g., --indexing-policy @policy-file.json)" }),
    (["cosmosdb", "collection"], .argument "default_ttl"
      { pyType := some .tyInt, help := some "Default TTL. Provide 0 to disable." }),
    (["cosmosdb", "database"], .argument "throughput"
      { pyType := some .tyInt, help := some "Offer Throughput (RU/s)" }) ]

/-- The argument registrations (name and settings, in program order) a
registration list performs at exactly one scope; `ignore` events carry no
flag definition. -/
def argRegsAt (regs : List (List String × ArgEvent)) (scope : List String) :
    List (String × ArgProps) :=
  regs.filterMap fun r =>
    if r.1 = scope then
      match r.2 with
      | .argument n p => some (n, p)
      | .ignore _ => none
    else none

/-! ## The flag schema registry (spec sections 4.1 and 4.3)

Modelled from the spec: the registry and scope-resolver machinery lives in
`azure.cli.core`, which is not under `src/`; only the registrations above
are.  `lookup` walks from the exact scope up to the root and returns the
most specific definition (spec section 4.1); `resolve` merges root-to-leaf,
later definitions overriding earlier ones by flag name (spec section 4.3). -/

/-- First-match association lookup in a flag map. -/
def lookupFlag : List (String × ArgProps) → String → Option ArgProps
  | [], _ => none
  | (n, d) :: rest, name => if n = name then some d else lookupFlag rest name

/-- The last definition a registration sequence gives a flag name, if any
(later registrations at the same scope win). -/
def lastDef : List (String × ArgProps) → String → Option ArgProps
  | [], _ => none
  | r :: rs, name =>
    match lastDef rs name with
    | some d => some d
    | none => if r.1 = name then some r.2 else none

/-- Insert-or-overwrite in a flag map, preserving first-seen order
(spec section 4.3: "preserving first-seen ordering for display purposes"). -/
def upsert (m : List (String × ArgProps)) (name : String) (d : ArgProps) :
    List (String × ArgProps) :=
  match m with
  | [] => [(name, d)]
  | (n, e) :: rest =>
    if n = name then (n, d) :: rest else (n, e) :: upsert rest name d

/-- Apply a sequence of registrations to a flag map, each overriding by name. -/
def applyRegs (base : List (String × ArgProps)) (rs : List (String × ArgProps)) :
    List (String × ArgProps) :=
  rs.foldl (fun m r => upsert m r.1 r.2) base

/-- `lookup`, on the reversed scope path: try the full scope, then retry with
the last segment removed, until the root. -/
def lookupRev (regs : List (List String × ArgEvent)) :
    List String → String → Option ArgProps
  | [], name => lastDef (argRegsAt regs []) name
  | s :: rest, name =>
    match lastDef (argRegsAt regs (s :: rest).reverse) name with
    | some d => some d
    | none => lookupRev regs rest name

/-- Registry lookup: walk from the exact scope up to the root, returning the
most specific definition found (spec section 4.1). -/
def registryLookup (regs : List (List String × ArgEvent)) (scope : List String)
    (name : String) : Option ArgProps :=
  lookupRev regs scope.reverse name

/-- `resolve`, on the reversed scope path: the root-to-leaf merge of every
prefix's registrations. -/
def resolveRev (regs : List (List String × ArgEvent)) :
    List String → List (String × ArgProps)
  | [] => applyRegs [] (argRegsAt regs [])
  | s :: rest => applyRegs (resolveRev regs rest) (argRegsAt regs (s :: rest).reverse)

/-- Scope resolution: merge root-to-leaf scopes, later (more specific)
definitions overriding earlier ones by flag name (spec section 4.3). -/
def registryResolve (regs : List (List String × ArgEvent)) (scope : List String) :
    List (String × ArgProps) :=
  resolveRev regs scope.reverse

/-! ## Typed values and the validator pipeline (spec sections 3 and 4.2) -/

/-- The value types of the spec's FlagDefinition data model (spec section 3):
string, int, bool-tristate, list-of-string, json-blob. -/
inductive VType where
  | tStr
  | tInt
  | tBool
  | tList
  | tJson
deriving DecidableEq, Repr

/-- A normalized flag value, one constructor per value type. -/
inductive Value where
  | vStr (s : String)
  | vInt (n : Int)
  | vBool (b : Bool)
  | vList (xs : List String)
  | vJson (s : String)
deriving DecidableEq, Repr

/-- Modelled from the spec: the bool-tristate conversion backing
`get_three_state_flag()` (the implementation is in `azure.cli.core`, not
under `src/`): the literal `true` / `false` value shapes. -/
def parseTristate (s : String) : Option Bool :=
  if s = "true" then some true
  else if s = "false" then some false
  else none

/-- Modelled from the spec: one validator step, "a function
`(raw_value, context) -> normalized_value | ValidationError`"
(spec section 4.2), per declared value type. -/
def validateValue (t : VType) (raw : String) : Except ValidationError Value :=
  match t with
  | .tStr => .ok (.vStr raw)
  | .tInt =>
    match intFromChars raw.data with
    | some n => .ok (.vInt n)
    | none => .error ⟨.BadFormat, "", raw⟩
  | .tBool =>
    match parseTristate raw with
    | some b => .ok (.vBool b)
    | none => .error ⟨.BadFormat, "", raw⟩
  | .tList => .ok (.vList ((splitOnChar ' ' raw.data).map String.mk))
  | .tJson => .ok (.vJson raw)

/-- A binder failure: an unknown flag (the spec's NotFoundError, section 7)
or a validation error with the offending flag name attached. -/
inductive BindError where
  | unknownFlag (flag : String)
  | invalid (e : ValidationError)
deriving DecidableEq, Repr

/-- First-match lookup of a flag's declared value type. -/
def lookupVType : List (String × VType) → String → Option VType
  | [], _ => none
  | (n, t) :: rest, name => if n = name then some t else lookupVType rest name

/-- Modelled from the spec: validate a raw flag bag against the resolved
definitions, flag by flag, surfacing the first failure with the failing flag
name attached (spec section 4.2); success produces the ParsedArgumentBag
(spec section 3). -/
def validateBag (defs : List (String × VType)) :
    List (String × String) → Except BindError (List (String × Value))
  | [] => .ok []
  | (n, s) :: rest =>
    match lookupVType defs n with
    | none => .error (.unknownFlag n)
    | some t =>
      match validateValue t s with
      | .error e => .error (.invalid { e with flag := n })
      | .ok v =>
        match validateBag defs rest with
        | .error e => .error e
        | .ok bag => .ok ((n, v) :: bag)

/-- Serialize one normalized value back to CLI-flag text. -/
def serializeValue : Value → String
  | .vStr s => s
  | .vInt n => toString n
  | .vBool b => if b then "true" else "false"
  | .vList xs => String.intercalate " " xs
  | .vJson s => s

/-- Serialize a normalized bag back to raw CLI-flag text pairs. -/
def serializeBag (bag : List (String × Value)) : List (String × String) :=
  bag.map fun p => (p.1, serializeValue p.2)

/-! ## The command dispatcher (spec section 4.4) -/

/-- An invocation failure: a binder failure, or a remote error passed through
verbatim from the external collaborator (spec section 7). -/
inductive InvokeError (ε : Type) where
  | binding (e : BindError)
  | remote (e : ε)
deriving DecidableEq

/-- Modelled from the spec: the Parse → Validate → Dispatch pipeline
(spec sections 4.2, 4.4 and 5).  The dispatcher forwards the validated bag to
the external collaborator and propagates its result or failure unchanged; the
second component counts collaborator calls (validation failure short-circuits
before any call, and no retry is ever performed). -/
def invokePipeline {α ε : Type} (defs : List (String × VType))
    (raw : List (String × String))
    (collab : List (String × Value) → Except ε α) :
    Except (InvokeError ε) α × Nat :=
  match validateBag defs raw with
  | .error e => (.error (.binding e), 0)
  | .ok bag =>
    match collab bag with
    | .error r => (.error (.remote r), 1)
    | .ok a => (.ok a, 1)

/-- The declared value type a registration implies, read off its settings
(spec section 3's value-type enum): `type=int` is int, a three-state flag is
bool-tristate, `nargs='+'` is list-of-string, `shell_safe_json_parse` is a
json blob, anything else a string. -/
def vtypeOf (p : ArgProps) : VType :=
  if p.pyType = some .tyInt then .tInt
  else if p.argType = some .threeStateFlag then .tBool
  else if p.pyType = some .tyShellSafeJsonParse then .tJson
  else if p.nargs = some "+" then .tList
  else .tStr

/-- The process-wide binder state: the registry built during the one-time
registration phase, plus a count of completed invocations. -/
structure BinderState where
  registry : List (List String × ArgEvent)
  completedInvocations : Nat
deriving DecidableEq

/-- One command invocation against the arguments of `load_arguments`: a
scope, the raw flag text pairs, and the external collaborator. -/
structure Invocation (α ε : Type) where
  scope : List String
  raw : List (String × String)
  collab : List (String × Value) → Except ε α

/-- Modelled from the spec: one full invocation, "Parse → Resolve Scope →
Validate → Dispatch → Return/Fail" (spec section 4.4).  The registry is only
read (resolution), a fresh ParsedArgumentBag is produced inside the pipeline,
and the invocation counter advances. -/
def runInvocation {α ε : Type} (st : BinderState) (inv : Invocation α ε) :
    BinderState × (Except (InvokeError ε) α × Nat) :=
  let defs := (registryResolve st.registry inv.scope).map fun p => (p.1, vtypeOf p.2)
  let out := invokePipeline defs inv.raw inv.collab
  (⟨st.registry, st.completedInvocations + 1⟩, out)

/-! ## The blob store collaborator (test scenarios) -/

/-- A transport-level failure raised by the storage collaborator
(the spec's RemoteOperationError, section 7). -/
structure TransportError where
  msg : String
deriving DecidableEq, Repr

/-- Modelled from the spec: the state of the external storage collaborator
(spec section 6, collaborator A/B), whose implementation is not under
`src/`; only the scenario tests are.  Blobs are keyed by container and
name and carry their byte content. -/
structure BlobStore where
  blobs : List ((String × String) × List Nat)
deriving DecidableEq

/-- Whether a blob exists, as `storage blob exists` reports it. -/
def blobExists (st : BlobStore) (container name : String) : Bool :=
  st.blobs.any fun b => b.1 = (container, name)

/-- Modelled from the spec: `storage blob upload` with a `--socket-timeout`
setting, as exercised by `test_storage_blob_socket_timeout` (test file lines
158-169): a negative socket timeout makes the transport raise an
AzureException and leaves the store unchanged; a valid timeout stores the
blob. -/
def uploadBlob (st : BlobStore) (container name : String) (content : List Nat)
    (socketTimeout : Int) : BlobStore × Except TransportError Unit :=
  if socketTimeout < 0 then
    (st, .error ⟨"invalid socket timeout"⟩)
  else
    (⟨((container, name), content) :: st.blobs.filter fun b => b.1 ≠ (container, name)⟩,
      .ok ())

/-- Modelled from the spec: a ranged `storage blob download` with
`--start-range s --end-range e`, as exercised by
`verify_blob_upload_and_download` (test file lines 116-119): both bounds are
inclusive byte offsets into the blob's content. -/
def downloadRange (content : List Nat) (s e : Nat) : List Nat :=
  (content.drop s).take (e - s + 1)

deriving instance DecidableEq for Except

/-! ### Supporting lemmas for the validator -/

theorem parseAllPairs_error_kind (ts : List String) (e : ValidationError)
    (h : parseAllPairs ts = .error e) : e.kind = .BadFormat := by
  induction ts with
  | nil => simp [parseAllPairs] at h
  | cons t ts ih =>
    simp only [parseAllPairs] at h
    cases hp : parsePair t with
    | none =>
      rw [hp] at h
      cases h
      rfl
    | some p =>
      rw [hp] at h
      cases hrest : parseAllPairs ts with
      | error e' =>
        rw [hrest] at h
        cases h
        exact ih hrest
      | ok ps =>
        rw [hrest] at h
        cases h

theorem parseAllPairs_ok_eq (ts : List String) (ps : List (String × Nat))
    (h : parseAllPairs ts = .ok ps) : ps = ts.filterMap parsePair := by
  induction ts generalizing ps with
  | nil =>
    simp [parseAllPairs] at h
    simp [h]
  | cons t ts ih =>
    simp only [parseAllPairs] at h
    cases hp : parsePair t with
    | none =>
      rw [hp] at h
      cases h
    | some p =>
      rw [hp] at h
      cases hrest : parseAllPairs ts with
      | error e' =>
        rw [hrest] at h
        cases h
      | ok ps' =>
        rw [hrest] at h
        cases h
        simp [List.filterMap_cons, hp, ih ps' hrest]

/-! ### Supporting lemmas for the registry -/

theorem lookupFlag_upsert (m : List (String × ArgProps)) (k : String) (v : ArgProps)
    (name : String) :
    lookupFlag (upsert m k v) name = if k = name then some v else lookupFlag m name := by
  induction m with
  | nil => simp [upsert, lookupFlag]
  | cons r rest ih =>
    obtain ⟨n, e⟩ := r
    by_cases hnk : n = k
    · subst hnk
      by_cases hkn : n = name
      · simp [upsert, lookupFlag, hkn]
      · simp [upsert, lookupFlag, hkn]
    · by_cases hnn : n = name
      · subst hnn
        have : ¬k = n := fun h => hnk h.symm
        simp [upsert, lookupFlag, hnk, this]
      · simp [upsert, lookupFlag, hnk, hnn, ih]

theorem lookupFlag_applyRegs (rs : List (String × ArgProps))
    (base : List (String × ArgProps)) (name : String) :
    lookupFlag (applyRegs base rs) name =
      match lastDef rs name with
      | some d => some d
      | none => lookupFlag base name := by
  induction rs generalizing base with
  | nil => simp [applyRegs, lastDef]
  | cons r rest ih =>
    have step : applyRegs base (r :: rest) = applyRegs (upsert base r.1 r.2) rest := by
      simp [applyRegs]
    rw [step, ih]
    cases hld : lastDef rest name with
    | some d => simp [lastDef, hld]
    | none =>
      by_cases hr : r.1 = name
      · simp [lastDef, hld, hr, lookupFlag_upsert]
      · simp [lastDef, hld, hr, lookupFlag_upsert]

theorem lookupFlag_resolveRev (regs : List (List String × ArgEvent))
    (revScope : List String) (name : String) :
    lookupFlag (resolveRev regs revScope) name = lookupRev regs revScope name := by
  induction revScope with
  | nil =>
    rw [resolveRev, lookupRev, lookupFlag_applyRegs]
    cases lastDef (argRegsAt regs []) name <;> simp [lookupFlag]
  | cons s rest ih =>
    rw [resolveRev, lookupRev, lookupFlag_applyRegs]
    cases lastDef (argRegsAt regs (s :: rest).reverse) name <;> simp [ih]

/-! ## Claim theorems -/

/-- Claim C1: for the flag `max_staleness_prefix` with its documented bounds
[1, 2147483647], every integer outside the range (in particular 0) fails
validation with `OutOfRange`, and both boundary values 1 and 2147483647
succeed. -/
theorem max_staleness_prefix_range_bounds :
    (∀ n : Int, (n < 1 ∨ n > 2147483647) →
      validateMaxStalenessPrefix n =
        .error ⟨.OutOfRange, "max_staleness_prefix", "value out of accepted range"⟩)
    ∧ validateMaxStalenessPrefix 0 =
        .error ⟨.OutOfRange, "max_staleness_prefix", "value out of accepted range"⟩
    ∧ validateMaxStalenessPrefix 1 = .ok 1
    ∧ validateMaxStalenessPrefix 2147483647 = .ok 2147483647 := by
  refine ⟨fun n h => ?_, by decide, by decide, by decide⟩
  simp only [validateMaxStalenessPrefix, rangeValidate, if_pos h]

/-- Witness for C1: the out-of-range value 0 named by the claim. -/
theorem max_staleness_prefix_range_bounds_witness :
    validateMaxStalenessPrefix 0 =
      .error ⟨.OutOfRange, "max_staleness_prefix", "value out of accepted range"⟩ :=
  max_staleness_prefix_range_bounds.1 0 (Or.inl (by decide))

/-- Claim C2: the failover-policies validator maps `eastus=0 westus=1` to the
ordered pair list [("eastus", 0), ("westus", 1)], and every input list whose
parsed region keys contain a duplicate fails with a `BadFormat` error. -/
theorem failover_policies_parse_and_duplicates :
    validate_failover_policies ["eastus=0", "westus=1"] = .ok [("eastus", 0), ("westus", 1)]
    ∧ (∀ ts : List String, ¬ (pairKeys ts).Nodup →
        ∃ e, validate_failover_policies ts = .error e ∧ e.kind = .BadFormat) := by
  refine ⟨by decide, fun ts hdup => ?_⟩
  cases ts with
  | nil => simp [pairKeys] at hdup
  | cons t ts =>
    cases hpp : parseAllPairs (t :: ts) with
    | error e =>
      exact ⟨e, by simp [validate_failover_policies, hpp],
        parseAllPairs_error_kind _ _ hpp⟩
    | ok ps =>
      have hkeys : ps.map Prod.fst = pairKeys (t :: ts) := by
        rw [parseAllPairs_ok_eq _ _ hpp, pairKeys]
      refine ⟨⟨.BadFormat, "failover_policies", "duplicate region key"⟩, ?_, rfl⟩
      have hnd : ¬ (ps.map Prod.fst).Nodup := by rw [hkeys]; exact hdup
      simp [validate_failover_policies, hpp, hnd]

/-- Witness for C2: the duplicate-key input `eastus=0 eastus=1` named by the
claim. -/
theorem failover_policies_parse_and_duplicates_witness :
    ∃ e, validate_failover_policies ["eastus=0", "eastus=1"] = .error e
      ∧ e.kind = .BadFormat :=
  failover_policies_parse_and_duplicates.2 ["eastus=0", "eastus=1"] (by decide)

/-- Claim C3: every pair list handed to the failover-priority validator whose
priorities skip a value of the zero-based sequence (for instance {0, 2})
fails with an `OutOfRange` contiguity violation. -/
theorem failover_policies_contiguity (ts : List String) (ps : List (String × Nat))
    (hpp : parseAllPairs ts = .ok ps)
    (hnd : (ps.map Prod.fst).Nodup)
    (hskip : ∃ i, i < ps.length ∧ i ∉ ps.map Prod.snd) :
    ∃ e, validate_failover_policies ts = .error e ∧ e.kind = .OutOfRange := by
  obtain ⟨i, hi, hmem⟩ := hskip
  cases ts with
  | nil =>
    simp [parseAllPairs] at hpp
    subst hpp
    simp at hi
  | cons t ts =>
    have hcont : contiguousOk ps = false := by
      apply decide_eq_false
      intro hall
      exact hmem (hall i hi)
    refine ⟨⟨.OutOfRange, "failover_policies", "failover priorities must be contiguous from 0"⟩, ?_, rfl⟩
    simp [validate_failover_policies, hpp, hnd, hcont]

/-- Witness for C3: the pair list `eastus=0 westus=2`, whose priorities are
{0, 2} and skip 1. -/
theorem failover_policies_contiguity_witness :
    ∃ e, validate_failover_policies ["eastus=0", "westus=2"] = .error e
      ∧ e.kind = .OutOfRange :=
  failover_policies_contiguity ["eastus=0", "westus=2"] [("eastus", 0), ("westus", 2)]
    (by decide) (by decide) ⟨1, by decide, by decide⟩

/-- Claim C4: resolving a child scope includes every parent-scope flag not
overridden at the child, and lookup returns the most specific definition:
for every registry, scope and flag name the resolved flag map agrees with the
root-walking lookup, and on the embedded cosmosdb registrations the
`account_name` flag registered at `cosmosdb` is inherited at
`cosmosdb update` while its redefinition (completer cleared) wins at
`cosmosdb create`. -/
theorem scope_resolution_inheritance_and_override :
    (∀ (regs : List (List String × ArgEvent)) (scope : List String) (name : String),
      lookupFlag (registryResolve regs scope) name = registryLookup regs scope name)
    ∧ registryLookup load_arguments ["cosmosdb", "create"] "account_name" =
        some { completer := some none }
    ∧ registryLookup load_arguments ["cosmosdb", "update"] "account_name" =
        some { argType := some .nameType,
               help := some "Name of the Cosmos DB database account",
               completer := some (some (.resourceNameCompletion "Microsoft.DocumentDb/databaseAccounts")),
               idPart := some (some "name") }
    ∧ lookupFlag (registryResolve load_arguments ["cosmosdb", "update"]) "account_name" =
        some { argType := some .nameType,
               help := some "Name of the Cosmos DB database account",
               completer := some (some (.resourceNameCompletion "Microsoft.DocumentDb/databaseAccounts")),
               idPart := some (some "name") } := by
  have agree : ∀ (regs : List (List String × ArgEvent)) (scope : List String) (name : String),
      lookupFlag (registryResolve regs scope) name = registryLookup regs scope name :=
    fun regs scope name => lookupFlag_resolveRev regs scope.reverse name
  have hcreate : registryLookup load_arguments ["cosmosdb", "create"] "account_name" =
      some { completer := some none } := by decide
  have hupdate : registryLookup load_arguments ["cosmosdb", "update"] "account_name" =
      some { argType := some .nameType,
             help := some "Name of the Cosmos DB database account",
             completer := some (some (.resourceNameCompletion "Microsoft.DocumentDb/databaseAccounts")),
             idPart := some (some "name") } := by decide
  exact ⟨agree, hcreate, hupdate, (agree load_arguments ["cosmosdb", "update"] "account_name").trans hupdate⟩

/-- Claim C8 counterexample: the registrations applied to `cosmosdb create`
and `cosmosdb update` are not the same set, because `cosmosdb create` also
receives the `account_name` registration of `_params.py` lines 29-30 while
`cosmosdb update` receives no `account_name` registration at all. -/
theorem create_update_registrations_differ :
    ("account_name", ({ completer := some none } : ArgProps)) ∈
        argRegsAt load_arguments ["cosmosdb", "create"]
    ∧ "account_name" ∉ (argRegsAt load_arguments ["cosmosdb", "update"]).map Prod.fst := by
  decide

set_option maxRecDepth 8000 in
/-- Claim C8 (amended): the registrations the loop at `_params.py` lines
32-46 applies to `cosmosdb create` and `cosmosdb update` are identical (same
names, types, validators and help text, in the same order); the two scopes'
full registration lists differ only by the extra `account_name` registration
(completer cleared) that lines 29-30 give `cosmosdb create`. -/
theorem create_update_loop_registrations_identical :
    argRegsAt load_arguments ["cosmosdb", "create"] =
      ("account_name", ({ completer := some none } : ArgProps)) ::
        argRegsAt load_arguments ["cosmosdb", "update"] := by
  decide

/-- Claim C5: when the dispatcher forwards a validated argument bag to a
collaborator that raises a transport error, the pipeline returns exactly that
error (wrapped unreinterpreted as a remote failure) without retrying, and on
every invocation the collaborator is called at most once. -/
theorem dispatcher_passes_remote_error_through :
    (∀ (α ε : Type) (defs : List (String × VType)) (raw : List (String × String))
        (collab : List (String × Value) → Except ε α)
        (bag : List (String × Value)) (err : ε),
      validateBag defs raw = .ok bag → collab bag = .error err →
        (invokePipeline defs raw collab).fst = .error (.remote err))
    ∧ (∀ (α ε : Type) (defs : List (String × VType)) (raw : List (String × String))
        (collab : List (String × Value) → Except ε α),
      (invokePipeline defs raw collab).snd ≤ 1) := by
  constructor
  · intro α ε defs raw collab bag err hv hc
    simp [invokePipeline, hv, hc]
  · intro α ε defs raw collab
    unfold invokePipeline
    cases validateBag defs raw with
    | error e => simp
    | ok bag => cases h : collab bag <;> simp [h]

/-- Witness for C5: a concrete bag validated against an int flag and a
tristate flag, dispatched to a collaborator that raises a transport error. -/
theorem dispatcher_passes_remote_error_through_witness :
    (invokePipeline [("a", VType.tInt), ("b", VType.tBool)] [("a", "1"), ("b", "true")]
        (fun _ => (.error ⟨"socket timeout"⟩ : Except TransportError Nat))).fst =
      .error (.remote ⟨"socket timeout"⟩)
    ∧ (invokePipeline [("a", VType.tInt), ("b", VType.tBool)] [("a", "1"), ("b", "true")]
        (fun _ => (.error ⟨"socket timeout"⟩ : Except TransportError Nat))).snd ≤ 1 :=
  ⟨dispatcher_passes_remote_error_through.1 Nat TransportError
      [("a", VType.tInt), ("b", VType.tBool)] [("a", "1"), ("b", "true")]
      (fun _ => .error ⟨"socket timeout"⟩)
      [("a", Value.vInt 1), ("b", Value.vBool true)] ⟨"socket timeout"⟩
      (by decide) rfl,
    dispatcher_passes_remote_error_through.2 Nat TransportError
      [("a", VType.tInt), ("b", VType.tBool)] [("a", "1"), ("b", "true")]
      (fun _ => .error ⟨"socket timeout"⟩)⟩

/-- Claim C6: validating the raw bag a = "1", b = "true" against an int
definition and a bool-tristate definition yields the normalized bag
a = 1, b = true, and serializing that normalized bag back to CLI-flag text
and re-parsing it yields the same bag. -/
theorem bag_parse_serialize_round_trip :
    validateBag [("a", VType.tInt), ("b", VType.tBool)] [("a", "1"), ("b", "true")] =
      .ok [("a", Value.vInt 1), ("b", Value.vBool true)]
    ∧ serializeBag [("a", Value.vInt 1), ("b", Value.vBool true)] = [("a", "1"), ("b", "true")]
    ∧ validateBag [("a", VType.tInt), ("b", VType.tBool)]
        (serializeBag [("a", Value.vInt 1), ("b", Value.vBool true)]) =
      .ok [("a", Value.vInt 1), ("b", Value.vBool true)] := by
  refine ⟨by decide, by decide, by decide⟩

/-- Claim C7: the registry is only read during invocations: every single
invocation, and every sequence of invocations, leaves the registered schema
unchanged while advancing only the invocation count. -/
theorem registry_unchanged_by_invocations :
    (∀ (α ε : Type) (st : BinderState) (inv : Invocation α ε),
      ((runInvocation st inv).fst).registry = st.registry)
    ∧ (∀ (α ε : Type) (st : BinderState) (invs : List (Invocation α ε)),
      (invs.foldl (fun s i => (runInvocation s i).fst) st).registry = st.registry) := by
  constructor
  · intro α ε st inv
    rfl
  · intro α ε st invs
    induction invs generalizing st with
    | nil => rfl
    | cons i rest ih => simpa [runInvocation] using ih _

/-- Claim C9: a ranged blob download with inclusive start and end offsets
produces exactly end - start + 1 bytes whenever the range lies inside the
blob. -/
theorem ranged_download_is_inclusive (content : List Nat) (s e : Nat)
    (hse : s ≤ e) (he : e < content.length) :
    (downloadRange content s e).length = e - s + 1 := by
  simp only [downloadRange, List.length_take, List.length_drop]
  omega

/-- Witness for C9: downloading range [10, 499] of a 500-byte blob produces
a 490-byte file, as `verify_blob_upload_and_download` asserts. -/
theorem ranged_download_is_inclusive_witness :
    (downloadRange (List.range 500) 10 499).length = 490 :=
  ranged_download_is_inclusive (List.range 500) 10 499 (by decide)
    (by simp)

/-- Claim C10: an upload that fails with a transport error (negative socket
timeout) leaves the store unchanged — the target blob still does not exist —
and a subsequent upload of the same blob with a valid timeout succeeds and
makes it exist. -/
theorem failed_upload_leaves_store_unchanged (st : BlobStore)
    (container name : String) (content : List Nat) (t t' : Int)
    (ht : t < 0) (ht' : 0 ≤ t') (habsent : blobExists st container name = false) :
    (uploadBlob st container name content t).fst = st
    ∧ (uploadBlob st container name content t).snd = .error ⟨"invalid socket timeout"⟩
    ∧ blobExists (uploadBlob st container name content t).fst container name = false
    ∧ (uploadBlob (uploadBlob st container name content t).fst container name content t').snd = .ok ()
    ∧ blobExists
        (uploadBlob (uploadBlob st container name content t).fst container name content t').fst
        container name = true := by
  have hfail : uploadBlob st container name content t = (st, .error ⟨"invalid socket timeout"⟩) := by
    simp [uploadBlob, ht]
  have hok : ¬ t' < 0 := not_lt.mpr ht'
  refine ⟨by rw [hfail], by rw [hfail], by rw [hfail]; exact habsent, ?_, ?_⟩
  · rw [hfail]
    simp [uploadBlob, hok]
  · rw [hfail]
    simp [uploadBlob, hok, blobExists]

/-- Witness for C10: uploading to an empty store with socket timeout -11
fails and stores nothing; re-uploading with timeout 10 succeeds. -/
theorem failed_upload_leaves_store_unchanged_witness :
    (uploadBlob ⟨[]⟩ "cont" "blob" [0] (-11)).fst = (⟨[]⟩ : BlobStore)
    ∧ (uploadBlob ⟨[]⟩ "cont" "blob" [0] (-11)).snd = .error ⟨"invalid socket timeout"⟩
    ∧ blobExists (uploadBlob ⟨[]⟩ "cont" "blob" [0] (-11)).fst "cont" "blob" = false
    ∧ (uploadBlob (uploadBlob ⟨[]⟩ "cont" "blob" [0] (-11)).fst "cont" "blob" [0] 10).snd = .ok ()
    ∧ blobExists (uploadBlob (uploadBlob ⟨[]⟩ "cont" "blob" [0] (-11)).fst "cont" "blob" [0] 10).fst
        "cont" "blob" = true :=
  failed_upload_leaves_store_unchanged ⟨[]⟩ "cont" "blob" [0] (-11) 10
    (by decide) (by decide) (by decide)
